import Mathlib

/-!
Verification of the pterodactyl-pbs-backups orchestration script
(src/pterodactyl-backups.py).

The script is embedded shallowly: every external effect (running a shell
command, spawning the backup tool, unlinking a file, removing a directory
tree) is recorded as an `Event` in a trace, and the outside world is an
explicit `Env` value giving the observations the script would make
(directory listings, docker ps output, command exit statuses).  Python
string operations that the script relies on (prefix matching done by
glob and grep, os.path.join, str.split) are modelled on the character
lists underlying Lean strings so that everything evaluates inside the
kernel.
-/

namespace PteroBackups

/-- Per-server section of config.yaml as consumed by the script.  The
script reads these with dict.get and explicit defaults, so every field
is optional here, mirroring a Python dict that may lack keys
(main builds a fully empty dict for unknown servers). -/
structure ServerSettings where
  schedule : Option String
  shutdown : Option Bool
  ignore_paths : Option (List String)
  deriving DecidableEq, Repr

/-- Global settings of config.yaml: VOLUMES_PATH, PBS_REPOSITORY,
PBS_NAMESPACE (lines 60-62 of the source). -/
structure Settings where
  volumes_path : String
  pbs_repository : String
  pbs_namespace : String
  deriving DecidableEq, Repr

/-- One entry of os.listdir(container_path) together with the answers
the os.path predicates give for it.  An entry with both flags false is
possible in a real directory (broken symlink, socket, fifo): os.path.isfile
and os.path.isdir both return False for those. -/
structure DirEntry where
  name : String
  isfile : Bool
  isdir : Bool
  deriving DecidableEq, Repr

/-- Externally visible actions of the script, in program order.
ranCommand is a subprocess.run call through run_command (shell string),
popenCmd is the direct subprocess.Popen call used for the backup tool,
unlinkFile / rmtreeDir are the deletions in the restore pre-wipe. -/
inductive Event where
  | ranCommand (cmd : String)
  | popenCmd (cmd : String)
  | unlinkFile (path : String)
  | rmtreeDir (path : String)
  deriving DecidableEq, Repr

/-- The outside world as the script observes it during one operation:
directory names under VOLUMES_PATH, docker ps output (running
containers), docker ps -a output (all containers), the exit status of
each shell command run through run_command, the returncode of the
backup Popen (none models the call raising instead of returning), the
captured stderr of the backup tool (progress text, only ever logged),
the listing of the resolved volume directory, and which deletions
raise. -/
structure Env where
  volumeEntries : List String
  runningContainers : List String
  allContainers : List String
  runCommandResult : String → Bool
  backupReturncode : Option Int
  backupStderr : String
  dirEntries : List DirEntry
  deleteFails : String → Bool

/-- Prefix match on names: glob f-string VOLUMES_PATH/serverID* (line 72)
and grep circumflex-serverID (lines 115, 147) both select exactly the
names that have the server id as a prefix. -/
def name_matches (sid e : String) : Bool :=
  sid.data.isPrefixOf e.data

/-- Whether a path string begins with the separator, as os.path.join
tests it. -/
def starts_sep (s : String) : Bool :=
  match s.data with
  | [] => false
  | c :: _ => c == '/'

/-- Whether a path string ends with the separator, as os.path.join
tests it. -/
def ends_sep (s : String) : Bool :=
  match s.data.getLast? with
  | none => false
  | some c => c == '/'

/-- Python os.path.join(a, b) for posix paths: b absolute wins, else
concatenate with a separator unless a is empty or already ends in one. -/
def os_path_join (a b : String) : String :=
  if starts_sep b then b
  else if a.isEmpty || ends_sep a then a ++ b
  else a ++ "/" ++ b

/-- Whitespace as Python str.split() with no arguments sees it. -/
def is_ws (c : Char) : Bool :=
  c == ' ' || c == '\t' || c == '\n' || c == '\r'

/-- Helper for split_fields: walk the characters, collecting the current
field in acc (reversed); whitespace closes a field, runs of whitespace
produce no empty fields. -/
def split_ws_aux : List Char → List Char → List String
  | [], acc => if acc.isEmpty then [] else [String.mk acc.reverse]
  | c :: cs, acc =>
    if is_ws c then
      if acc.isEmpty then split_ws_aux cs []
      else String.mk acc.reverse :: split_ws_aux cs []
    else split_ws_aux cs (c :: acc)

/-- Python str.split() with no arguments, as used on the cron schedule
string (line 262): split on whitespace runs, no empty fields. -/
def split_fields (s : String) : List String :=
  split_ws_aux s.data []

/-- The two failure modes of resolution, distinguished in the source by
the two messages Multiple ... found and No ... found. -/
inductive ResolutionError where
  | noMatch
  | ambiguousMatch
  deriving DecidableEq, Repr

/-- get_container_path (lines 67-77): glob VOLUMES_PATH/serverID*
yields the full paths of the entries whose name the server id prefixes;
more than one match raises Multiple, zero raises No, otherwise
matches[0] is returned. -/
def get_container_path (entries : List String) (root sid : String) :
    Except ResolutionError String :=
  let ms := (entries.filter (fun e => name_matches sid e)).map
    (fun e => root ++ "/" ++ e)
  if ms.length > 1 then Except.error ResolutionError.ambiguousMatch
  else
    match ms with
    | [] => Except.error ResolutionError.noMatch
    | m :: _ => Except.ok m

/-- run_command (lines 79-107): executes the given shell command string,
returns True on exit 0 and False on non-zero exit or timeout (both
collapsed into the Bool the environment assigns to the command).  The
invocation is recorded in the trace. -/
def run_command (env : Env) (cmd : String) : Bool × List Event :=
  (env.runCommandResult cmd, [Event.ranCommand cmd])

/-- Container-name resolution inside manage_container (lines 114-124):
docker ps -a piped through grep circumflex-serverID; an empty result
(grep exits non-zero, or only an empty line) is the No-container error,
two or more lines is the Multiple-containers error, otherwise the
single name. -/
def resolve_container (containers : List String) (sid : String) :
    Except ResolutionError String :=
  match containers.filter (fun c => name_matches sid c) with
  | [] => Except.error ResolutionError.noMatch
  | [c] => Except.ok c
  | _ => Except.error ResolutionError.ambiguousMatch

/-- The f-string docker action container_name of line 125. -/
def docker_cmd (action name : String) : String :=
  "docker " ++ action ++ " " ++ name

/-- manage_container (lines 109-128): resolve the container name, then
run docker action name through run_command; resolution failure returns
False without running anything. -/
def manage_container (env : Env) (sid action : String) : Bool × List Event :=
  match resolve_container env.allContainers sid with
  | Except.error _ => (false, [])
  | Except.ok name => run_command env (docker_cmd action name)

/-- Exclude argument construction (lines 160-166): for each relative
path in ignore_paths, in order, the pair --exclude, os.path.join of the
volume path and the entry. -/
def exclude_args (cpath : String) (ignore_paths : List String) : List String :=
  (ignore_paths.map (fun rel => ["--exclude", os_path_join cpath rel])).flatten

/-- The backup command argument list (lines 169-177), including the
manually inserted double quotes around the pxar specification and the
single quotes around the repository, exactly as the f-strings build
them. -/
def backup_cmd (st : Settings) (sid cpath : String) (ex : List String) :
    List String :=
  ["proxmox-backup-client", "backup",
   "\"" ++ sid ++ ".pxar:" ++ cpath ++ "\"",
   "--repository", "'" ++ st.pbs_repository ++ "'",
   "--ns", st.pbs_namespace,
   "--backup-type", "host",
   "--change-detection-mode", "metadata",
   "--backup-id", sid] ++ ex

/-- Python " ".join: empty for the empty list, the sole element for a
singleton, and otherwise the elements interleaved with single
spaces. -/
def join_args : List String → String
  | [] => ""
  | [a] => a
  | a :: b :: rest => a ++ " " ++ join_args (b :: rest)

/-- The single string handed to subprocess.Popen with shell=True
(line 180): the space join of the argument list. -/
def backup_popen_payload (st : Settings) (sid cpath : String)
    (ignore_paths : List String) : String :=
  join_args (backup_cmd st sid cpath (exclude_args cpath ignore_paths))

/-- The try/finally body of backup_server (lines 159-202): build the
command, spawn it (popenCmd event), success is returncode equal to 0
(stderr is only logged, line 188); the finally block issues a start
through manage_container exactly when shutdown is configured and the
container was observed running, and its result is only logged.  A none
returncode models the spawn raising: no Bool result is produced but
the finally block still runs. -/
def backup_attempt (st : Settings) (env : Env) (sid : String)
    (cfg : ServerSettings) (cpath : String) (was_running : Bool) :
    Option Bool × List Event :=
  let payload := backup_popen_payload st sid cpath (cfg.ignore_paths.getD [])
  let res : Option Bool := env.backupReturncode.map (fun rc => rc == 0)
  let finEvs :=
    if cfg.shutdown.getD false && was_running then
      (manage_container env sid "start").2
    else []
  (res, Event.popenCmd payload :: finEvs)

/-- backup_server (lines 130-202): resolve the volume path (failure
returns False with no side effect); when shutdown is configured, check
docker ps for the container — container_was_running is True exactly
when the prefix grep finds something; if it was running, stop it, and a
failed stop returns False before the backup is attempted; then the
try/finally body runs. -/
def backup_server (st : Settings) (env : Env) (sid : String)
    (cfg : ServerSettings) : Option Bool × List Event :=
  match get_container_path env.volumeEntries st.volumes_path sid with
  | Except.error _ => (some false, [])
  | Except.ok cpath =>
    let running := env.runningContainers.filter (fun c => name_matches sid c)
    let was_running := cfg.shutdown.getD false && !running.isEmpty
    if was_running then
      let stop := manage_container env sid "stop"
      if stop.1 then
        let att := backup_attempt st env sid cfg cpath was_running
        (att.1, stop.2 ++ att.2)
      else (some false, stop.2)
    else backup_attempt st env sid cfg cpath was_running

/-- The deletion loop of restore_server (lines 223-233), over the
os.listdir result: entries answering os.path.isfile are unlinked,
otherwise entries answering os.path.isdir are removed with
shutil.rmtree; an entry answering neither predicate is not touched by
either branch.  A deletion that raises stops the loop immediately with
failure.  Returns the success flag, the entries still present under the
directory, and the deletion events in order. -/
def delete_items (env : Env) (cpath : String) :
    List DirEntry → Bool × List DirEntry × List Event
  | [] => (true, [], [])
  | e :: rest =>
    let p := os_path_join cpath e.name
    if e.isfile then
      if env.deleteFails p then (false, e :: rest, [Event.unlinkFile p])
      else
        let r := delete_items env cpath rest
        (r.1, r.2.1, Event.unlinkFile p :: r.2.2)
    else if e.isdir then
      if env.deleteFails p then (false, e :: rest, [Event.rmtreeDir p])
      else
        let r := delete_items env cpath rest
        (r.1, r.2.1, Event.rmtreeDir p :: r.2.2)
    else
      let r := delete_items env cpath rest
      (r.1, e :: r.2.1, r.2.2)

/-- The restore command argument list (lines 236-243), with the
manually inserted quotes of the f-strings. -/
def restore_cmd (st : Settings) (sid snapshot cpath : String) : List String :=
  ["proxmox-backup-client", "restore",
   snapshot,
   "\"" ++ sid ++ ".ppxar\"",
   "\"" ++ cpath ++ "\"",
   "--repository", "'" ++ st.pbs_repository ++ "'",
   "--ns", st.pbs_namespace]

/-- The single shell string handed to run_command for the restore
(line 245): the space join of the restore argument list. -/
def restore_shell_string (st : Settings) (sid snapshot cpath : String) :
    String :=
  join_args (restore_cmd st sid snapshot cpath)

/-- restore_server (lines 204-253): resolve the volume path, kill the
container through manage_container (failure aborts before any file is
touched), run the deletion loop (failure aborts with False before the
restore command exists in the trace), then run the joined restore
command through run_command and return its result. -/
def restore_server (st : Settings) (env : Env) (sid snapshot : String) :
    Bool × List Event :=
  match get_container_path env.volumeEntries st.volumes_path sid with
  | Except.error _ => (false, [])
  | Except.ok cpath =>
    let kill := manage_container env sid "kill"
    if kill.1 then
      let wipe := delete_items env cpath env.dirEntries
      if wipe.1 then
        let run := run_command env (restore_shell_string st sid snapshot cpath)
        (run.1, kill.2 ++ wipe.2.2 ++ run.2)
      else (false, kill.2 ++ wipe.2.2)
    else (false, kill.2)

/-- A job registered with the scheduler: id is the server id it is
keyed by (line 275), cronFields the five parsed fields. -/
structure ScheduledJob where
  id : String
  cronFields : List String
  deriving DecidableEq, Repr

/-- The body of the scheduling loop for one server (lines 260-278): a
missing schedule key raises and the except clause skips the server; a
field count different from 5 skips the server (lines 263-265);
otherwise a job keyed by the server id is registered.  Trigger
construction is modelled as always accepting five fields. -/
def job_of (p : String × ServerSettings) : Option ScheduledJob :=
  match p.2.schedule with
  | none => none
  | some sched =>
    if (split_fields sched).length = 5 then
      some (ScheduledJob.mk p.1 (split_fields sched))
    else none

/-- schedule_jobs (lines 255-281): iterate over the servers of the
configuration in order, registering the jobs the loop body accepts;
a skipped server never stops the loop. -/
def schedule_jobs (servers : List (String × ServerSettings)) :
    List ScheduledJob :=
  servers.filterMap job_of

/-- Python dict.get on the servers mapping (line 342), the keys being
unique as keys of a dict. -/
def dict_get (servers : List (String × ServerSettings)) (sid : String) :
    Option ServerSettings :=
  (servers.find? (fun p => p.1 == sid)).map Prod.snd

/-- The one-shot CLI backup branch of main (lines 336-351): take the
configured per-server dict if present and an empty dict otherwise, set
shutdown to True when the --shutdown flag was given, and run
backup_server; the process exits 0 exactly when backup_server returned
True. -/
def main_backup (st : Settings) (env : Env)
    (servers : List (String × ServerSettings)) (sid : String)
    (shutdownFlag : Bool) : Option Bool × List Event :=
  let base := (dict_get servers sid).getD (ServerSettings.mk none none none)
  let server_config :=
    if shutdownFlag then
      ServerSettings.mk base.schedule (some true) base.ignore_paths
    else base
  backup_server st env sid server_config

/-- Concrete global settings for the witnesses. -/
def stW : Settings := Settings.mk "/data" "repo" "ns"

/-- A per-server configuration with shutdown enabled and no ignore
paths. -/
def cfgShut : ServerSettings := ServerSettings.mk none (some true) none

/-- World with one volume directory and one container, which is
running; every command succeeds and the backup exits 0. -/
def envRun : Env :=
  Env.mk ["alpha-vol"] ["alpha-c"] ["alpha-c"] (fun _ => true) (some 0) "" []
    (fun _ => false)

/-- Same world but the container is not running. -/
def envIdle : Env :=
  Env.mk ["alpha-vol"] [] ["alpha-c"] (fun _ => true) (some 0) "" []
    (fun _ => false)

/-- Same world but every shell command fails, in particular docker
stop. -/
def envStopFail : Env :=
  Env.mk ["alpha-vol"] ["alpha-c"] ["alpha-c"] (fun _ => false) (some 0) "" []
    (fun _ => false)

/-- World where only the stop command succeeds: the restart after the
backup fails, and the backup tool wrote progress text to stderr. -/
def envStartFail : Env :=
  Env.mk ["alpha-vol"] ["alpha-c"] ["alpha-c"]
    (fun s => s == docker_cmd "stop" "alpha-c") (some 0) "progress noise" []
    (fun _ => false)

/-- World for the skipped-entry counterexamples: the single entry under
the volume directory answers neither the file nor the directory
predicate (a socket, fifo or broken symlink), every command succeeds
and no deletion raises. -/
def envSock : Env :=
  Env.mk ["alpha-vol"] ["alpha-c"] ["alpha-c"] (fun _ => true) (some 0) ""
    [DirEntry.mk "srv.sock" false false] (fun _ => false)

/-- World in which the first deletion the wipe attempts raises: the
directory entry world cannot be removed. -/
def envDelFail : Env :=
  Env.mk ["alpha-vol"] ["alpha-c"] ["alpha-c"] (fun _ => true) (some 0) ""
    [DirEntry.mk "world" false true, DirEntry.mk "cfg.txt" true false]
    (fun p => p == "/data/alpha-vol/world")

/-- Configuration entry with a valid daily schedule. -/
def cfgSchedGood : ServerSettings :=
  ServerSettings.mk (some "0 3 * * *") none none

/-- Configuration entry whose schedule has only 4 fields. -/
def cfgSchedBad : ServerSettings :=
  ServerSettings.mk (some "0 3 * *") none none

/-- A two-server configuration: alpha valid, beta invalid. -/
def serversW : List (String × ServerSettings) :=
  [("alpha", cfgSchedGood), ("beta", cfgSchedBad)]

/-- World for the C10 witness: a volume directory for delta exists, no
container is needed, the backup exits 0; delta is not in serversW. -/
def envDelta : Env :=
  Env.mk ["delta-vol"] [] [] (fun _ => true) (some 0) "" [] (fun _ => false)

/-- With exactly one matching directory name, get_container_path returns
its full path. -/
lemma get_container_path_single (entries : List String) (root sid m : String)
    (h : entries.filter (fun e => name_matches sid e) = [m]) :
    get_container_path entries root sid = Except.ok (root ++ "/" ++ m) := by
  simp [get_container_path, h]

/-- With no matching directory name, get_container_path reports the
no-match error. -/
lemma get_container_path_none (entries : List String) (root sid : String)
    (h : entries.filter (fun e => name_matches sid e) = []) :
    get_container_path entries root sid = Except.error ResolutionError.noMatch := by
  simp [get_container_path, h]

/-- With two or more matching directory names, get_container_path
reports the ambiguous-match error. -/
lemma get_container_path_multi (entries : List String) (root sid : String)
    (h : 2 ≤ (entries.filter (fun e => name_matches sid e)).length) :
    get_container_path entries root sid =
      Except.error ResolutionError.ambiguousMatch := by
  unfold get_container_path
  have hlen : 1 < ((entries.filter (fun e => name_matches sid e)).map
      (fun e => root ++ "/" ++ e)).length := by
    simpa using h
  simp [hlen]
  intro hle
  omega

/-- With exactly one matching container name, resolve_container returns
it. -/
lemma resolve_container_single (ctrs : List String) (sid c : String)
    (h : ctrs.filter (fun x => name_matches sid x) = [c]) :
    resolve_container ctrs sid = Except.ok c := by
  simp [resolve_container, h]

/-- With no matching container name, resolve_container reports the
no-match error. -/
lemma resolve_container_none (ctrs : List String) (sid : String)
    (h : ctrs.filter (fun x => name_matches sid x) = []) :
    resolve_container ctrs sid = Except.error ResolutionError.noMatch := by
  simp [resolve_container, h]

/-- With two or more matching container names, resolve_container
reports the ambiguous-match error. -/
lemma resolve_container_multi (ctrs : List String) (sid : String)
    (h : 2 ≤ (ctrs.filter (fun x => name_matches sid x)).length) :
    resolve_container ctrs sid = Except.error ResolutionError.ambiguousMatch := by
  unfold resolve_container
  rcases hl : ctrs.filter (fun x => name_matches sid x) with _ | ⟨a, _ | ⟨b, t⟩⟩
  · rw [hl] at h; simp at h
  · rw [hl] at h; simp at h
  · rfl

/-- With a unique container match, manage_container runs exactly the
docker command for that container and returns its exit status. -/
lemma manage_container_single (env : Env) (sid action n : String)
    (h : env.allContainers.filter (fun c => name_matches sid c) = [n]) :
    manage_container env sid action =
      (env.runCommandResult (docker_cmd action n),
       [Event.ranCommand (docker_cmd action n)]) := by
  simp [manage_container, resolve_container_single env.allContainers sid n h,
    run_command]

/-- C3: for every serverID, resolution of the volume directory and of
the container returns the unique match when exactly one entry has the
serverID as a name prefix, fails with the no-match error when zero
entries match, and fails with the ambiguous-match error when two or
more match — never silently picking one. -/
theorem C3_resolution_exactly_one (entries ctrs : List String)
    (root sid : String) :
    (∀ m, entries.filter (fun e => name_matches sid e) = [m] →
        get_container_path entries root sid = Except.ok (root ++ "/" ++ m)) ∧
    (entries.filter (fun e => name_matches sid e) = [] →
        get_container_path entries root sid =
          Except.error ResolutionError.noMatch) ∧
    (2 ≤ (entries.filter (fun e => name_matches sid e)).length →
        get_container_path entries root sid =
          Except.error ResolutionError.ambiguousMatch) ∧
    (∀ c, ctrs.filter (fun x => name_matches sid x) = [c] →
        resolve_container ctrs sid = Except.ok c) ∧
    (ctrs.filter (fun x => name_matches sid x) = [] →
        resolve_container ctrs sid = Except.error ResolutionError.noMatch) ∧
    (2 ≤ (ctrs.filter (fun x => name_matches sid x)).length →
        resolve_container ctrs sid =
          Except.error ResolutionError.ambiguousMatch) :=
  ⟨fun m h => get_container_path_single entries root sid m h,
   get_container_path_none entries root sid,
   get_container_path_multi entries root sid,
   fun c h => resolve_container_single ctrs sid c h,
   resolve_container_none ctrs sid,
   resolve_container_multi ctrs sid⟩

/-- Witness for C3: one matching directory resolves to its path, one
matching container resolves to its name, zero matches give the
no-match error, two matches give the ambiguous-match error. -/
theorem C3_witness :
    get_container_path ["alpha-world", "beta-b"] "/data" "alpha"
      = Except.ok ("/data" ++ "/" ++ "alpha-world")
    ∧ resolve_container ["alpha-c", "gamma"] "alpha" = Except.ok "alpha-c"
    ∧ get_container_path [] "/data" "alpha"
      = Except.error ResolutionError.noMatch
    ∧ resolve_container ["alpha1", "alpha2"] "alpha"
      = Except.error ResolutionError.ambiguousMatch := by
  refine ⟨?_, ?_, ?_, ?_⟩
  · exact (C3_resolution_exactly_one ["alpha-world", "beta-b"] [] "/data"
      "alpha").1 "alpha-world" (by decide)
  · exact (C3_resolution_exactly_one [] ["alpha-c", "gamma"] "/data"
      "alpha").2.2.2.1 "alpha-c" (by decide)
  · exact (C3_resolution_exactly_one [] [] "/data" "alpha").2.1 (by decide)
  · exact (C3_resolution_exactly_one [] ["alpha1", "alpha2"] "/data"
      "alpha").2.2.2.2.2 (by decide)

/-- C1: when shutdown is configured, the container was observed running
and the stop succeeded, the start command is issued on every exit path
after the backup command is attempted — the environment leaves the
backup returncode completely free, so the trace equation below holds
whether the backup command exits 0, exits non-zero, or raises (none) —
and when the container was observed not running, no start (indeed no
container command at all) is issued. -/
theorem C1_restart_on_every_exit_path (st : Settings) (env : Env)
    (sid : String) (cfg : ServerSettings) (v n : String)
    (hvol : env.volumeEntries.filter (fun e => name_matches sid e) = [v])
    (hall : env.allContainers.filter (fun c => name_matches sid c) = [n])
    (hshut : cfg.shutdown = some true) :
    ((env.runningContainers.filter (fun c => name_matches sid c)).isEmpty
        = false →
      env.runCommandResult (docker_cmd "stop" n) = true →
      (backup_server st env sid cfg).2 =
        [Event.ranCommand (docker_cmd "stop" n),
         Event.popenCmd (backup_popen_payload st sid
           (st.volumes_path ++ "/" ++ v) (cfg.ignore_paths.getD [])),
         Event.ranCommand (docker_cmd "start" n)]) ∧
    ((env.runningContainers.filter (fun c => name_matches sid c)).isEmpty
        = true →
      (backup_server st env sid cfg).2 =
        [Event.popenCmd (backup_popen_payload st sid
           (st.volumes_path ++ "/" ++ v) (cfg.ignore_paths.getD []))]) := by
  constructor
  · intro hrun hstop
    simp [backup_server,
      get_container_path_single env.volumeEntries st.volumes_path sid v hvol,
      hshut, hrun, manage_container_single env sid "stop" n hall, hstop,
      backup_attempt, manage_container_single env sid "start" n hall]
  · intro hrun
    simp [backup_server,
      get_container_path_single env.volumeEntries st.volumes_path sid v hvol,
      hshut, hrun, backup_attempt]

/-- C6: when shutdown is configured, the container was observed running
and the docker stop command fails, the whole backup aborts with a
failure result; the trace holds exactly the stop command, so the backup
command was never spawned and no start was issued. -/
theorem C6_stop_failure_aborts (st : Settings) (env : Env) (sid : String)
    (cfg : ServerSettings) (v n : String)
    (hvol : env.volumeEntries.filter (fun e => name_matches sid e) = [v])
    (hall : env.allContainers.filter (fun c => name_matches sid c) = [n])
    (hshut : cfg.shutdown = some true)
    (hrun : (env.runningContainers.filter
        (fun c => name_matches sid c)).isEmpty = false)
    (hstop : env.runCommandResult (docker_cmd "stop" n) = false) :
    backup_server st env sid cfg =
      (some false, [Event.ranCommand (docker_cmd "stop" n)]) := by
  simp [backup_server,
    get_container_path_single env.volumeEntries st.volumes_path sid v hvol,
    hshut, hrun, manage_container_single env sid "stop" n hall, hstop]

/-- C7: whenever the backup command is reached (volume resolves, and a
required stop did not fail), the returned result is exactly whether the
backup process exited with status 0.  The right-hand side does not
mention the captured stderr nor any docker start result, so stderr
output cannot make a successful run a failure and a restart failure
after the backup cannot change the result in either direction. -/
theorem C7_result_iff_exit_zero (st : Settings) (env : Env) (sid : String)
    (cfg : ServerSettings) (v : String)
    (hvol : env.volumeEntries.filter (fun e => name_matches sid e) = [v])
    (hstop : (cfg.shutdown.getD false && !(env.runningContainers.filter
        (fun c => name_matches sid c)).isEmpty) = true →
      (manage_container env sid "stop").1 = true) :
    (backup_server st env sid cfg).1 =
      env.backupReturncode.map (fun rc => rc == 0) := by
  unfold backup_server
  rw [get_container_path_single env.volumeEntries st.volumes_path sid v hvol]
  by_cases hw : (cfg.shutdown.getD false && !(env.runningContainers.filter
      (fun c => name_matches sid c)).isEmpty) = true
  · simp [hw, hstop hw, backup_attempt]
  · simp [hw, backup_attempt]

/-- With a separator-free relative component and a non-empty directory
not ending in the separator, os.path.join is plain concatenation with
one separator. -/
lemma os_path_join_rel (a b : String) (hb : starts_sep b = false)
    (ha : a.isEmpty = false) (ha2 : ends_sep a = false) :
    os_path_join a b = a ++ "/" ++ b := by
  simp [os_path_join, hb, ha, ha2]

/-- The exclude list over relative entries is exactly one pair
(--exclude, path/entry) per entry, in input order. -/
lemma exclude_args_rel (cpath : String) (ignore : List String)
    (hc : cpath.isEmpty = false) (hc2 : ends_sep cpath = false)
    (hrel : ∀ p ∈ ignore, starts_sep p = false) :
    exclude_args cpath ignore =
      (ignore.map (fun p => ["--exclude", cpath ++ "/" ++ p])).flatten := by
  induction ignore with
  | nil => rfl
  | cons p rest ih =>
    have hp : starts_sep p = false := hrel p (List.mem_cons_self p rest)
    have ih2 := ih (fun q hq => hrel q (List.mem_cons_of_mem p hq))
    simp only [exclude_args, List.map_cons, List.flatten_cons] at ih2 ⊢
    rw [os_path_join_rel cpath p hp hc hc2, ih2]

/-- C8: the backup command line contains exactly one --exclude argument
per entry of ignorePaths, whose value is the entry joined onto the
volume path, in the same order as the entries. -/
theorem C8_excludes_in_order (st : Settings) (sid cpath : String)
    (ignore : List String) (hc : cpath.isEmpty = false)
    (hc2 : ends_sep cpath = false)
    (hrel : ∀ p ∈ ignore, starts_sep p = false) :
    backup_cmd st sid cpath (exclude_args cpath ignore) =
      backup_cmd st sid cpath [] ++
        (ignore.map (fun p => ["--exclude", cpath ++ "/" ++ p])).flatten := by
  rw [exclude_args_rel cpath ignore hc hc2 hrel]
  simp [backup_cmd]

/-- Witness for C1: in the running world the trace is stop, backup,
start; in the idle world it is the backup alone. -/
theorem C1_witness :
    (backup_server stW envRun "alpha" cfgShut).2 =
      [Event.ranCommand (docker_cmd "stop" "alpha-c"),
       Event.popenCmd (backup_popen_payload stW "alpha"
         (stW.volumes_path ++ "/" ++ "alpha-vol") (cfgShut.ignore_paths.getD [])),
       Event.ranCommand (docker_cmd "start" "alpha-c")]
    ∧ (backup_server stW envIdle "alpha" cfgShut).2 =
      [Event.popenCmd (backup_popen_payload stW "alpha"
         (stW.volumes_path ++ "/" ++ "alpha-vol")
         (cfgShut.ignore_paths.getD []))] := by
  constructor
  · exact (C1_restart_on_every_exit_path stW envRun "alpha" cfgShut
      "alpha-vol" "alpha-c" (by decide) (by decide) rfl).1 (by decide) rfl
  · exact (C1_restart_on_every_exit_path stW envIdle "alpha" cfgShut
      "alpha-vol" "alpha-c" (by decide) (by decide) rfl).2 (by decide)

/-- Witness for C6: with docker stop failing, the backup returns False
and the trace holds only the stop attempt. -/
theorem C6_witness :
    backup_server stW envStopFail "alpha" cfgShut =
      (some false, [Event.ranCommand (docker_cmd "stop" "alpha-c")]) :=
  C6_stop_failure_aborts stW envStopFail "alpha" cfgShut "alpha-vol"
    "alpha-c" (by decide) (by decide) rfl (by decide) rfl

/-- Witness for C7: the backup exits 0 while the restart fails and
stderr holds progress text, and the result is still success by exit
status alone. -/
theorem C7_witness :
    (backup_server stW envStartFail "alpha" cfgShut).1 =
      envStartFail.backupReturncode.map (fun rc => rc == 0) :=
  C7_result_iff_exit_zero stW envStartFail "alpha" cfgShut "alpha-vol"
    (by decide) (fun _ => by decide)

/-- Witness for C8, the scenario of the spec: ignore paths cache and
tmp/logs under /data/alpha-vol give the two exclude pairs in order. -/
theorem C8_witness :
    backup_cmd stW "alpha" "/data/alpha-vol"
        (exclude_args "/data/alpha-vol" ["cache", "tmp/logs"]) =
      backup_cmd stW "alpha" "/data/alpha-vol" [] ++
        ((["cache", "tmp/logs"] : List String).map
          (fun p => ["--exclude", "/data/alpha-vol" ++ "/" ++ p])).flatten :=
  C8_excludes_in_order stW "alpha" "/data/alpha-vol" ["cache", "tmp/logs"]
    (by decide) (by decide) (by decide)

/-- Every event produced by the deletion loop is an unlink or an rmtree
event; in particular no command invocation hides among them. -/
lemma delete_items_events_shape (env : Env) (cpath : String) :
    ∀ entries : List DirEntry, ∀ ev ∈ (delete_items env cpath entries).2.2,
      (∃ p, ev = Event.unlinkFile p) ∨ (∃ p, ev = Event.rmtreeDir p) := by
  intro entries
  induction entries with
  | nil => intro ev hev; simp [delete_items] at hev
  | cons e rest ih =>
    intro ev hev
    unfold delete_items at hev
    by_cases hf : e.isfile
    · by_cases hfail : env.deleteFails (os_path_join cpath e.name)
      · simp [hf, hfail] at hev
        exact Or.inl ⟨os_path_join cpath e.name, hev⟩
      · simp [hf, hfail] at hev
        rcases hev with h | h
        · exact Or.inl ⟨os_path_join cpath e.name, h⟩
        · exact ih ev h
    · by_cases hd : e.isdir
      · by_cases hfail : env.deleteFails (os_path_join cpath e.name)
        · simp [hf, hd, hfail] at hev
          exact Or.inr ⟨os_path_join cpath e.name, hev⟩
        · simp [hf, hd, hfail] at hev
          rcases hev with h | h
          · exact Or.inr ⟨os_path_join cpath e.name, h⟩
          · exact ih ev h
      · simp [hf, hd] at hev
        exact ih ev hev

/-- The deletion loop succeeds exactly when the deletion of every entry
it attempts to delete — those answering the file or the directory
predicate — succeeds. -/
lemma delete_items_ok_iff (env : Env) (cpath : String)
    (entries : List DirEntry) :
    (delete_items env cpath entries).1 = true ↔
      ∀ e ∈ entries, (e.isfile || e.isdir) = true →
        env.deleteFails (os_path_join cpath e.name) = false := by
  induction entries with
  | nil => simp [delete_items]
  | cons e rest ih =>
    unfold delete_items
    by_cases hf : e.isfile
    · by_cases hfail : env.deleteFails (os_path_join cpath e.name)
      · simp [hf, hfail]
      · simp [hf, hfail, ih, List.forall_mem_cons]
    · by_cases hd : e.isdir
      · by_cases hfail : env.deleteFails (os_path_join cpath e.name)
        · simp [hf, hd, hfail]
        · simp [hf, hd, hfail, ih, List.forall_mem_cons]
      · simp [hf, hd, ih, List.forall_mem_cons]

/-- Counterexample to C4 as stated: the wipe over a directory holding
one entry that answers neither predicate completes successfully, emits
no deletion event, and the entry remains — so a fully successful wipe
does not leave the directory without entries of any kind. -/
theorem C4_counterexample :
    delete_items envSock "/data/alpha-vol"
        [DirEntry.mk "srv.sock" false false] =
      (true, [DirEntry.mk "srv.sock" false false], ([] : List Event))
    ∧ [DirEntry.mk "srv.sock" false false] ≠ ([] : List DirEntry) :=
  ⟨rfl, by decide⟩

/-- C4 amended: when every attempted deletion succeeds, the wipe
unlinks exactly the entries answering the file predicate and removes
recursively exactly the entries answering the directory predicate, in
input order; the entries answering neither predicate are skipped and
are exactly what remains under the volume path. -/
theorem C4_amended_wipe_skips_specials (env : Env) (cpath : String)
    (entries : List DirEntry)
    (h : ∀ e ∈ entries, (e.isfile || e.isdir) = true →
      env.deleteFails (os_path_join cpath e.name) = false) :
    delete_items env cpath entries =
      (true, entries.filter (fun e => !e.isfile && !e.isdir),
       (entries.filter (fun e => e.isfile || e.isdir)).map
         (fun e => if e.isfile then
             Event.unlinkFile (os_path_join cpath e.name)
           else Event.rmtreeDir (os_path_join cpath e.name))) := by
  induction entries with
  | nil => rfl
  | cons e rest ih =>
    have ihr := ih (fun q hq hfd => h q (List.mem_cons_of_mem e hq) hfd)
    unfold delete_items
    by_cases hf : e.isfile
    · have hfail : env.deleteFails (os_path_join cpath e.name) = false :=
        h e (List.mem_cons_self e rest) (by simp [hf])
      simp [hf, hfail, ihr]
    · by_cases hd : e.isdir
      · have hfail : env.deleteFails (os_path_join cpath e.name) = false :=
          h e (List.mem_cons_self e rest) (by simp [hd])
        simp [hf, hd, hfail, ihr]
      · simp [hf, hd, ihr]

/-- Witness for the amended C4 at a directory holding a regular file, a
directory and a socket, with no deletion raising: the file is unlinked,
the directory removed, the socket remains. -/
theorem C4_witness :
    delete_items envSock "/data/alpha-vol"
        [DirEntry.mk "cfg.txt" true false, DirEntry.mk "world" false true,
         DirEntry.mk "srv.sock" false false] =
      (true,
       ([DirEntry.mk "cfg.txt" true false, DirEntry.mk "world" false true,
         DirEntry.mk "srv.sock" false false].filter
          (fun e => !e.isfile && !e.isdir)),
       (([DirEntry.mk "cfg.txt" true false, DirEntry.mk "world" false true,
          DirEntry.mk "srv.sock" false false].filter
           (fun e => e.isfile || e.isdir)).map
         (fun e => if e.isfile then
             Event.unlinkFile (os_path_join "/data/alpha-vol" e.name)
           else Event.rmtreeDir (os_path_join "/data/alpha-vol" e.name)))) :=
  C4_amended_wipe_skips_specials envSock "/data/alpha-vol"
    [DirEntry.mk "cfg.txt" true false, DirEntry.mk "world" false true,
     DirEntry.mk "srv.sock" false false] (by decide)

/-- Counterexample to C2 as stated: in the world envSock the restore
command is invoked (second and last trace event) although the single
entry under the volume path was never removed — the trace holds no
deletion event at all and the listing is non-empty.  The restore
command can therefore run without every entry under the volume path
having been successfully removed. -/
theorem C2_counterexample :
    restore_server stW envSock "alpha" "snap" =
      (true, [Event.ranCommand (docker_cmd "kill" "alpha-c"),
              Event.ranCommand (restore_shell_string stW "alpha" "snap"
                "/data/alpha-vol")])
    ∧ envSock.dirEntries = [DirEntry.mk "srv.sock" false false] :=
  ⟨rfl, rfl⟩

/-- C2 amended: the forceful kill is always the first trace event,
before any file under the volume path is touched; a single failure of
an attempted deletion makes restore return failure with a trace of kill
plus deletion events only — the restore command is never invoked; when
every attempted deletion succeeds the restore command runs and its exit
status is the result; the wipe succeeds exactly when every deletion it
attempts (of the entries answering the file or directory predicate)
succeeds — entries answering neither predicate are skipped, not
removed; and the deletion events contain no command invocation. -/
theorem C2_amended_wipe_gates_restore (st : Settings) (env : Env)
    (sid snapshot v n : String)
    (hvol : env.volumeEntries.filter (fun e => name_matches sid e) = [v])
    (hall : env.allContainers.filter (fun c => name_matches sid c) = [n])
    (hkill : env.runCommandResult (docker_cmd "kill" n) = true) :
    ((restore_server st env sid snapshot).2.head? =
      some (Event.ranCommand (docker_cmd "kill" n))) ∧
    ((delete_items env (st.volumes_path ++ "/" ++ v) env.dirEntries).1
        = false →
      restore_server st env sid snapshot =
        (false, Event.ranCommand (docker_cmd "kill" n) ::
          (delete_items env (st.volumes_path ++ "/" ++ v)
            env.dirEntries).2.2)) ∧
    ((delete_items env (st.volumes_path ++ "/" ++ v) env.dirEntries).1
        = true →
      restore_server st env sid snapshot =
        (env.runCommandResult (restore_shell_string st sid snapshot
          (st.volumes_path ++ "/" ++ v)),
         Event.ranCommand (docker_cmd "kill" n) ::
          ((delete_items env (st.volumes_path ++ "/" ++ v)
            env.dirEntries).2.2 ++
           [Event.ranCommand (restore_shell_string st sid snapshot
             (st.volumes_path ++ "/" ++ v))]))) ∧
    ((delete_items env (st.volumes_path ++ "/" ++ v) env.dirEntries).1
        = true ↔
      ∀ e ∈ env.dirEntries, (e.isfile || e.isdir) = true →
        env.deleteFails (os_path_join (st.volumes_path ++ "/" ++ v) e.name)
          = false) ∧
    (∀ ev ∈ (delete_items env (st.volumes_path ++ "/" ++ v)
        env.dirEntries).2.2,
      (∃ p, ev = Event.unlinkFile p) ∨ (∃ p, ev = Event.rmtreeDir p)) := by
  have hmc := manage_container_single env sid "kill" n hall
  refine ⟨?_, ?_, ?_, delete_items_ok_iff env (st.volumes_path ++ "/" ++ v)
    env.dirEntries, delete_items_events_shape env
    (st.volumes_path ++ "/" ++ v) env.dirEntries⟩
  · unfold restore_server
    rw [get_container_path_single env.volumeEntries st.volumes_path sid v hvol]
    by_cases hw : (delete_items env (st.volumes_path ++ "/" ++ v)
        env.dirEntries).1 = true
    · simp [hmc, hkill, hw, run_command]
    · simp [hmc, hkill, hw]
  · intro hw
    unfold restore_server
    rw [get_container_path_single env.volumeEntries st.volumes_path sid v hvol]
    simp [hmc, hkill, hw]
  · intro hw
    unfold restore_server
    rw [get_container_path_single env.volumeEntries st.volumes_path sid v hvol]
    simp [hmc, hkill, hw, run_command]

/-- Witness for the amended C2: with the removal of the entry world
raising, restore returns failure and the trace is the kill followed by
the single attempted deletion — no restore command. -/
theorem C2_witness :
    restore_server stW envDelFail "alpha" "snap" =
      (false, Event.ranCommand (docker_cmd "kill" "alpha-c") ::
        (delete_items envDelFail (stW.volumes_path ++ "/" ++ "alpha-vol")
          envDelFail.dirEntries).2.2) :=
  (C2_amended_wipe_gates_restore stW envDelFail "alpha" "snap" "alpha-vol"
    "alpha-c" (by decide) (by decide) rfl).2.1 (by decide)

/-- Joining a cons onto a non-empty tail always inserts one space. -/
lemma join_args_cons (a : String) (l : List String) (h : l ≠ []) :
    join_args (a :: l) = a ++ " " ++ join_args l := by
  cases l with
  | nil => exact absurd rfl h
  | cons b t => rfl

/-- Two non-empty suffixes with the same join give the same join after
any common list of leading arguments. -/
lemma join_args_append_congr (l : List String) (xs ys : List String)
    (hxs : xs ≠ []) (hys : ys ≠ []) (h : join_args xs = join_args ys) :
    join_args (l ++ xs) = join_args (l ++ ys) := by
  induction l with
  | nil => simpa using h
  | cons a t ih =>
    have hxt : t ++ xs ≠ [] := by simp [List.append_eq_nil, hxs]
    have hyt : t ++ ys ≠ [] := by simp [List.append_eq_nil, hys]
    rw [List.cons_append, List.cons_append, join_args_cons a (t ++ xs) hxt,
      join_args_cons a (t ++ ys) hyt, ih]

/-- Counterexample to C5 as stated: the backup invocation does not
receive an explicit argument vector — subprocess.Popen is handed the
single space-joined shell string of line 180 — and that string is
identical for two different argument lists: the single crafted ignore
entry on the left produces exactly the command line of the two separate
ignore entries on the right, so argument boundaries are not preserved
and the shell reinterprets path text as separate arguments. -/
theorem C5_counterexample :
    backup_popen_payload stW "s" "/p" ["x --exclude /p/y"] =
      backup_popen_payload stW "s" "/p" ["x", "y"]
    ∧ (["x --exclude /p/y"] : List String) ≠ ["x", "y"] :=
  ⟨rfl, by decide⟩

/-- C5 amended: every external command is executed as the shell string
obtained by joining the argument list with spaces (with manual quoting
inside some arguments), not as an argument vector; consequently, for
every volume path and entries whose joins concatenate plainly, one
ignore entry containing the text of an exclude pair yields the very
same shell string as the two separate ignore entries. -/
theorem C5_amended_shell_string (st : Settings) (sid p x y : String)
    (hx : os_path_join p (x ++ " --exclude " ++ os_path_join p y) =
      (os_path_join p x ++ " ") ++ (("--exclude" ++ " ") ++ os_path_join p y)) :
    backup_popen_payload st sid p [x ++ " --exclude " ++ os_path_join p y] =
      backup_popen_payload st sid p [x, y] := by
  have hex1 : exclude_args p [x ++ " --exclude " ++ os_path_join p y] =
      ["--exclude", os_path_join p (x ++ " --exclude " ++ os_path_join p y)] :=
    rfl
  have hex2 : exclude_args p [x, y] =
      ["--exclude", os_path_join p x, "--exclude", os_path_join p y] := rfl
  unfold backup_popen_payload backup_cmd
  rw [hex1, hex2, hx]
  apply join_args_append_congr
  · simp
  · simp
  · rfl

/-- Witness for the amended C5 at concrete arguments. -/
theorem C5_witness :
    backup_popen_payload stW "s" "/p"
        ["x" ++ " --exclude " ++ os_path_join "/p" "y"] =
      backup_popen_payload stW "s" "/p" ["x", "y"] :=
  C5_amended_shell_string stW "s" "/p" "x" "y" (by decide)

/-- A registered job is keyed by the server id of the configuration
entry it came from. -/
lemma job_of_id (p : String × ServerSettings) (j : ScheduledJob)
    (h : job_of p = some j) : j.id = p.1 := by
  unfold job_of at h
  split at h
  · exact absurd h (by simp)
  · split at h
    · rw [Option.some.injEq] at h
      rw [← h]
    · exact absurd h (by simp)

/-- A server id absent from the configuration keys never appears among
the registered jobs. -/
lemma schedule_jobs_filter_not_mem (servers : List (String × ServerSettings))
    (sid : String) (h : ∀ p ∈ servers, p.1 ≠ sid) :
    (schedule_jobs servers).filter (fun j => j.id == sid) = [] := by
  induction servers with
  | nil => rfl
  | cons p rest ih =>
    have hp : p.1 ≠ sid := h p (List.mem_cons_self p rest)
    have ihr := ih (fun q hq => h q (List.mem_cons_of_mem p hq))
    unfold schedule_jobs at ihr ⊢
    rw [List.filterMap_cons]
    cases hj : job_of p with
    | none => exact ihr
    | some j =>
      have hid : (j.id == sid) = false := by
        have := job_of_id p j hj
        simp [this, hp]
      simp [List.filter_cons, hid, ihr]

/-- C9: under distinct configuration keys, a server whose schedule
string has exactly 5 whitespace-separated fields is registered with
exactly one job keyed by its server id, and a server whose schedule
does not split into 5 fields (or has no schedule key) gets no job —
independently of every other entry of the configuration. -/
theorem C9_bad_schedule_skips_only_that_server
    (servers : List (String × ServerSettings))
    (hnodup : (servers.map Prod.fst).Nodup)
    (sid : String) (settings : ServerSettings)
    (hmem : (sid, settings) ∈ servers) :
    (∀ sched, settings.schedule = some sched →
        (split_fields sched).length = 5 →
      (schedule_jobs servers).filter (fun j => j.id == sid) =
        [ScheduledJob.mk sid (split_fields sched)]) ∧
    ((∀ sched, settings.schedule = some sched →
        (split_fields sched).length ≠ 5) →
      (schedule_jobs servers).filter (fun j => j.id == sid) = []) := by
  induction servers with
  | nil => cases hmem
  | cons p rest ih =>
    rw [List.map_cons, List.nodup_cons] at hnodup
    rcases List.mem_cons.mp hmem with heq | hmem2
    · subst heq
      have hrest : ∀ q ∈ rest, q.1 ≠ sid := by
        intro q hq hq1
        apply hnodup.1
        show sid ∈ List.map Prod.fst rest
        rw [← hq1]
        exact List.mem_map_of_mem Prod.fst hq
      have htail := schedule_jobs_filter_not_mem rest sid hrest
      unfold schedule_jobs at htail
      constructor
      · intro sched hs h5
        unfold schedule_jobs
        rw [List.filterMap_cons]
        have hj : job_of (sid, settings) =
            some (ScheduledJob.mk sid (split_fields sched)) := by
          simp [job_of, hs, h5]
        rw [hj]
        simp [List.filter_cons, htail]
      · intro hbad
        unfold schedule_jobs
        rw [List.filterMap_cons]
        have hj : job_of (sid, settings) = none := by
          cases hs : settings.schedule with
          | none => simp [job_of, hs]
          | some sched => simp [job_of, hs, hbad sched hs]
        rw [hj]
        exact htail
    · have hp : p.1 ≠ sid := by
        intro hp1
        apply hnodup.1
        rw [hp1]
        exact List.mem_map_of_mem Prod.fst hmem2
      have ihr := ih hnodup.2 hmem2
      constructor
      · intro sched hs h5
        unfold schedule_jobs
        rw [List.filterMap_cons]
        cases hj : job_of p with
        | none => exact ihr.1 sched hs h5
        | some j =>
          have hid : (j.id == sid) = false := by
            have := job_of_id p j hj
            simp [this, hp]
          have h1 := ihr.1 sched hs h5
          unfold schedule_jobs at h1
          simp [List.filter_cons, hid, h1]
      · intro hbad
        unfold schedule_jobs
        rw [List.filterMap_cons]
        cases hj : job_of p with
        | none => exact ihr.2 hbad
        | some j =>
          have hid : (j.id == sid) = false := by
            have := job_of_id p j hj
            simp [this, hp]
          have h2 := ihr.2 hbad
          unfold schedule_jobs at h2
          simp [List.filter_cons, hid, h2]

/-- Witness for C9: alpha gets exactly its one job, beta gets none,
each in the presence of the other. -/
theorem C9_witness :
    (schedule_jobs serversW).filter (fun j => j.id == "alpha") =
      [ScheduledJob.mk "alpha" (split_fields "0 3 * * *")] ∧
    (schedule_jobs serversW).filter (fun j => j.id == "beta") = [] := by
  constructor
  · exact (C9_bad_schedule_skips_only_that_server serversW (by decide)
      "alpha" cfgSchedGood (by decide)).1 "0 3 * * *" rfl (by decide)
  · exact (C9_bad_schedule_skips_only_that_server serversW (by decide)
      "beta" cfgSchedBad (by decide)).2 (fun sched hs => by
        simp [cfgSchedBad] at hs
        subst hs
        decide)

/-- C10: a server id absent from the configured servers mapping does
not make the one-shot CLI backup fail — it runs backup_server with the
dict.get default, an empty per-server configuration in which shutdown
holds exactly when the --shutdown flag was given and the ignore list is
empty; and whenever the volume directory of such a server resolves
uniquely and the backup command exits 0, the CLI reports success. -/
theorem C10_unknown_server_uses_empty_config (st : Settings) (env : Env)
    (servers : List (String × ServerSettings)) (sid : String)
    (shutdownFlag : Bool)
    (habsent : dict_get servers sid = none) :
    (main_backup st env servers sid shutdownFlag =
      backup_server st env sid
        (ServerSettings.mk none (if shutdownFlag then some true else none)
          none)) ∧
    (∀ v, env.volumeEntries.filter (fun e => name_matches sid e) = [v] →
      shutdownFlag = false → env.backupReturncode = some 0 →
      (main_backup st env servers sid shutdownFlag).1 = some true) := by
  constructor
  · unfold main_backup
    rw [habsent]
    cases shutdownFlag <;> simp
  · intro v hvol hflag hrc
    subst hflag
    unfold main_backup
    rw [habsent]
    simp only [Option.getD_none, if_neg Bool.false_ne_true]
    unfold backup_server
    rw [get_container_path_single env.volumeEntries st.volumes_path sid v hvol]
    simp [backup_attempt, hrc]

/-- Witness for C10: the unknown server delta is backed up with the
empty configuration and the CLI result is success. -/
theorem C10_witness :
    (main_backup stW envDelta serversW "delta" false =
      backup_server stW envDelta "delta"
        (ServerSettings.mk none (if false then some true else none) none)) ∧
    (main_backup stW envDelta serversW "delta" false).1 = some true := by
  have h := C10_unknown_server_uses_empty_config stW envDelta serversW
    "delta" false (by decide)
  exact ⟨h.1, h.2 "delta-vol" (by decide) rfl rfl⟩

end PteroBackups
